import Mathlib

/-!
Verification of the RAMCloud replica-manager sources: a shallow embedding of
ServerId (ServerId.h), the FailureDetector stale-list / ping logic
(FailureDetector.cc), the default server configurations (ServerConfig.h) and
the ServerTracker used by the replica manager, together with proofs of the
specification's claims about them.

Machine integers are modelled as Nat with explicit `% 2 ^ w` truncation at the
points where the C++ code converts or could overflow.  Debug-only asserts in
the C++ (which vanish under NDEBUG) are elided; the claims carry the asserted
conditions as hypotheses instead.
-/

namespace RAMCloud

/-- Integer representing an invalid generation number: uint32_t(-1). -/
def INVALID_SERVERID_GENERATION_NUMBER : Nat := 4294967295

/-- The 64-bit identifier of a RAMCloud server process (class ServerId,
ServerId.h).  `serverId` is the uint64_t field. -/
structure ServerId where
  serverId : Nat
deriving Repr, DecidableEq

/-- The default ServerId constructor: invalid id, generation all-ones,
`serverId = INVALID_SERVERID_GENERATION_NUMBER << 32`. -/
def ServerId.invalid : ServerId :=
  ⟨INVALID_SERVERID_GENERATION_NUMBER <<< 32⟩

/-- `ServerId(uint64_t id)`: wrap a serialised identifier.  The argument is a
uint64_t, hence the `% 2 ^ 64`. -/
def ServerId.ofU64 (id : Nat) : ServerId := ⟨id % 2 ^ 64⟩

/-- `ServerId(uint32_t indexNumber, uint32_t generationNumber)`:
`(generationNumber << 32) | indexNumber`.  Both arguments are uint32_t,
hence the `% 2 ^ 32` truncations. -/
def ServerId.ofIndexGen (indexNumber generationNumber : Nat) : ServerId :=
  ⟨(generationNumber % 2 ^ 32) <<< 32 ||| indexNumber % 2 ^ 32⟩

/-- `ServerId::getId()`: the uint64_t serialised form.  (The debug assert of
validity is elided; claims about `getId` assume validity.) -/
def ServerId.getId (s : ServerId) : Nat := s.serverId

/-- `ServerId::indexNumber()`: `serverId & 0xffffffffUL`. -/
def ServerId.indexNumber (s : ServerId) : Nat := s.serverId &&& 0xffffffff

/-- `ServerId::_generationNumber()`: `downCast<uint32_t>(serverId >> 32)`. -/
def ServerId.generationNumberRaw (s : ServerId) : Nat :=
  (s.serverId >>> 32) % 2 ^ 32

/-- `ServerId::generationNumber()` (debug assert of validity elided). -/
def ServerId.generationNumber (s : ServerId) : Nat := s.generationNumberRaw

/-- `ServerId::isValid()`: the generation number is not all-ones. -/
def ServerId.isValid (s : ServerId) : Bool :=
  s.generationNumberRaw != INVALID_SERVERID_GENERATION_NUMBER

/-- `ServerId::operator==`: invalid is invalid, regardless of the index
number; otherwise compare the uint64_t representations. -/
def ServerId.eq (a b : ServerId) : Bool :=
  if !a.isValid && !b.isValid then true
  else a.serverId == b.serverId

/-- `ServerId::operator!=`: negation of `operator==`. -/
def ServerId.neq (a b : ServerId) : Bool := !(ServerId.eq a b)

/-! FailureDetector (FailureDetector.cc): the stale-server-list suspicion
fields of the detector and the methods that manipulate them.  The RPC
environment (server-list version, clock reading, RPC outcomes) is passed in
explicitly; tick-to-nanosecond conversion (Cycles::toNanoseconds) and the
STALE_SERVER_LIST_USECS constant (declared in the header, which is not among
the sources) are parameters. -/

/-- The suspicion-related state of a FailureDetector:
`staleServerListSuspected`, `staleServerListVersion` (the local version
recorded when suspicion began) and `staleServerListTimestamp` (rdtsc ticks
when suspicion began). -/
structure FDState where
  staleServerListSuspected : Bool
  staleServerListVersion : Nat
  staleServerListTimestamp : Nat
deriving Repr, DecidableEq

/-- The only exception kind the detector's coordinator calls can raise that
it handles: TransportException. -/
inductive FdError
  | transport
deriving Repr, DecidableEq

/-- `CoordinatorClient::hintServerDown` as seen by the detector: it either
returns normally or raises a TransportException; `rpcSucceeds` selects
which. -/
def hintServerDown (rpcSucceeds : Bool) : Except FdError Unit :=
  if rpcSucceeds then Except.ok () else Except.error FdError.transport

/-- `FailureDetector::alertCoordinator`: logs a warning, then sends one
hintServerDown RPC; a TransportException from the hint is caught, logged and
swallowed.  Returns (control outcome, number of hint RPCs issued). -/
def alertCoordinator (hintRpcSucceeds : Bool) : Except FdError Unit × Nat :=
  match hintServerDown hintRpcSucceeds with
  | Except.ok () => (Except.ok (), 1)
  | Except.error FdError.transport => (Except.ok (), 1)

/-- `FailureDetector::checkServerListVersion`: if already suspicious, do
nothing; if the observed version is not ahead of ours, do nothing; otherwise
record the current version and timestamp and become suspicious. -/
def checkServerListVersion (s : FDState)
    (observedVersion currentVersion now : Nat) : FDState :=
  if s.staleServerListSuspected then s
  else if observedVersion ≤ currentVersion then s
  else { staleServerListSuspected := true
         staleServerListVersion := currentVersion
         staleServerListTimestamp := now }

/-- `FailureDetector::checkForStaleServerList`: nothing to do when not
suspicious; drop suspicion if the local version advanced past the recorded
one; otherwise, once `toNanoseconds(now - timestamp)` reaches
`STALE_SERVER_LIST_USECS * 1000`, send one requestServerList RPC to the
coordinator and drop suspicion only if that RPC returned normally (a
TransportException is caught and merely logged).  Returns the new state and
the number of requestServerList RPCs issued during the call. -/
def checkForStaleServerList (staleServerListUsecs : Nat)
    (toNanoseconds : Nat → Nat) (s : FDState) (currentVersion now : Nat)
    (requestRpcSucceeds : Bool) : FDState × Nat :=
  if !s.staleServerListSuspected then (s, 0)
  else if s.staleServerListVersion < currentVersion then
    ({ s with staleServerListSuspected := false }, 0)
  else
    let deltaTicks := now - s.staleServerListTimestamp
    if staleServerListUsecs * 1000 ≤ toNanoseconds deltaTicks then
      if requestRpcSucceeds then
        ({ s with staleServerListSuspected := false }, 1)
      else (s, 1)
    else (s, 0)

/-- Outcome of the try-block of `FailureDetector::pingRandomServer`
(getLocator plus the ping RPC): success carrying the peer's server-list
version, a ServerListException (stale id race in getLocator), a
TimeoutException, or a TransportException. -/
inductive PingOutcome
  | success (serverListVersion : Nat)
  | serverListException
  | timeoutException
  | transportException
deriving Repr, DecidableEq

/-- Result of one `pingRandomServer` round: the detector state afterwards,
how many hintServerDown RPCs were sent, and whether control left the method
normally (`Except.ok`) or by an uncaught exception. -/
structure PingRound where
  state : FDState
  hintsSent : Nat
  result : Except FdError Unit
deriving Repr

/-- `FailureDetector::pingRandomServer`: skip the round if the chosen pingee
is invalid or ourselves; on ping success run checkServerListVersion on the
reported version; on ServerListException just log (stale-id race, skip); on
TimeoutException or TransportException call alertCoordinator. -/
def pingRandomServer (ourServerId : ServerId) (s : FDState)
    (pingee : ServerId) (currentVersion now : Nat) (hintRpcSucceeds : Bool)
    (outcome : PingOutcome) : PingRound :=
  if !pingee.isValid || ServerId.eq pingee ourServerId then
    ⟨s, 0, Except.ok ()⟩
  else
    match outcome with
    | PingOutcome.success v =>
        ⟨checkServerListVersion s v currentVersion now, 0, Except.ok ()⟩
    | PingOutcome.serverListException => ⟨s, 0, Except.ok ()⟩
    | PingOutcome.timeoutException =>
        ⟨s, (alertCoordinator hintRpcSucceeds).2,
          (alertCoordinator hintRpcSucceeds).1⟩
    | PingOutcome.transportException =>
        ⟨s, (alertCoordinator hintRpcSucceeds).2,
          (alertCoordinator hintRpcSucceeds).1⟩

/-! ServerConfig (ServerConfig.h): the default configurations produced by the
private constructors behind `forTesting()` and `forExecution()`.  The
`Master()` constructor of the execution path value-initialises every field
(uint64_t/uint32_t fields become 0, bool fields false). -/

/-- `ServerConfig::Master`. -/
structure MasterConfig where
  logBytes : Nat
  hashTableBytes : Nat
  disableLogCleaner : Bool
  numReplicas : Nat
deriving Repr, DecidableEq

/-- `Master(Testing)`: the unit-test defaults. -/
def MasterConfig.forTesting : MasterConfig :=
  { logBytes := 32 * 1024 * 1024
    hashTableBytes := 1 * 1024 * 1024
    disableLogCleaner := true
    numReplicas := 0 }

/-- `Master()`: the execution-path constructor; every member is
value-initialised (zero / false). -/
def MasterConfig.forExecution : MasterConfig :=
  { logBytes := 0
    hashTableBytes := 0
    disableLogCleaner := false
    numReplicas := 0 }

/-- `ServerConfig::Backup`. -/
structure BackupConfig where
  inMemory : Bool
  numSegmentFrames : Nat
  segmentSize : Nat
  file : String
  strategy : Nat
  mockSpeed : Nat
deriving Repr, DecidableEq

/-- `Backup(Testing)`. -/
def BackupConfig.forTesting : BackupConfig :=
  { inMemory := true
    numSegmentFrames := 4
    segmentSize := 64 * 1024
    file := ""
    strategy := 1
    mockSpeed := 100 }

/-- `Backup()` (with `SEGMENT_SIZE` taken as a parameter-free placeholder of
its declared byte count, 8 MB in Segment.h of this codebase era). -/
def BackupConfig.forExecution : BackupConfig :=
  { inMemory := false
    numSegmentFrames := 512
    segmentSize := 8 * 1024 * 1024
    file := "/var/tmp/backup.log"
    strategy := 1
    mockSpeed := 0 }

/-- Service types (bit positions of ServiceMask). -/
def MASTER_SERVICE : Nat := 0

def BACKUP_SERVICE : Nat := 1

def MEMBERSHIP_SERVICE : Nat := 2

def PING_SERVICE : Nat := 3

/-- Serialised mask bit for one service type. -/
def serviceBit (s : Nat) : Nat := 1 <<< s

/-- Whether mask `m` includes every service of mask `required`. -/
def maskHasAll (m required : Nat) : Bool := m &&& required == required

/-- `struct ServerConfig`. -/
structure ServerConfig where
  coordinatorLocator : String
  localLocator : String
  services : Nat
  detectFailures : Bool
  pinMemory : Bool
  master : MasterConfig
  backup : BackupConfig
deriving Repr, DecidableEq

/-- `ServerConfig(Testing)`, i.e. `ServerConfig::forTesting()`. -/
def ServerConfig.forTesting : ServerConfig :=
  { coordinatorLocator := ""
    localLocator := ""
    services := serviceBit MASTER_SERVICE ||| serviceBit BACKUP_SERVICE |||
      serviceBit MEMBERSHIP_SERVICE
    detectFailures := false
    pinMemory := false
    master := MasterConfig.forTesting
    backup := BackupConfig.forTesting }

/-- `ServerConfig()`, i.e. `ServerConfig::forExecution()`. -/
def ServerConfig.forExecution : ServerConfig :=
  { coordinatorLocator := ""
    localLocator := ""
    services := serviceBit MASTER_SERVICE ||| serviceBit BACKUP_SERVICE |||
      serviceBit PING_SERVICE ||| serviceBit MEMBERSHIP_SERVICE
    detectFailures := true
    pinMemory := true
    master := MasterConfig.forExecution
    backup := BackupConfig.forExecution }

/-! Change Tracker.  ServerTracker.h itself is not among the sources; only
its unit tests (ServerTrackerTest) and its users are.  The definitions below
are therefore modelled from the specification (spec §4.1), kept consistent
with the behaviour pinned down by ServerTrackerTest. -/

/-- `ServerDetails`: identity, locator and service mask of one server. -/
structure ServerDetails where
  serverId : ServerId
  serviceLocator : String
  services : Nat
deriving Repr, DecidableEq

/-- A default-constructed `ServerDetails`: invalid id, empty locator, empty
service mask. -/
def ServerDetails.default : ServerDetails := ⟨ServerId.invalid, "", 0⟩

/-- `ServerChangeEvent`. -/
inductive ServerChangeEvent
  | serverAdded
  | serverRemoved
deriving Repr, DecidableEq

/-- Modelled from the spec: one dense-index slot of the Change Tracker's
internal vector: the server identity plus the subscriber's opaque per-entry
pointer (C++ `T*`, with NULL modelled as `none`). -/
structure TrackerSlot where
  server : ServerDetails
  pointer : Option Nat
deriving Repr, DecidableEq

/-- An unoccupied slot: default identity and NULL pointer. -/
def TrackerSlot.empty : TrackerSlot := ⟨ServerDetails.default, none⟩

/-- Modelled from the spec: the Change Tracker state (ServerTracker.h is
missing from the sources): the dense slot vector, the pending-event FIFO,
the index whose REMOVED event was last handed out (uint32_t(-1), i.e.
`none`, when there is none), and the post-consumption server count behind
`size()`. -/
structure Tracker where
  serverList : List TrackerSlot
  changes : List (ServerDetails × ServerChangeEvent)
  lastRemovedIndex : Option Nat
  numberOfServers : Nat
deriving Repr, DecidableEq

/-- A freshly constructed tracker. -/
def Tracker.empty : Tracker := ⟨[], [], none, 0⟩

/-- Modelled from the spec: `enqueueChange(entry, event)` appends the event
to the FIFO; for ADDED it reserves a slot at the entry's index, growing the
vector if needed.  The consumed view (slots, count) is untouched. -/
def Tracker.enqueueChange (t : Tracker) (d : ServerDetails)
    (e : ServerChangeEvent) : Tracker :=
  let idx := d.serverId.indexNumber
  let grown :=
    match e with
    | ServerChangeEvent.serverAdded =>
        if t.serverList.length ≤ idx then
          t.serverList ++
            List.replicate (idx + 1 - t.serverList.length) TrackerSlot.empty
        else t.serverList
    | ServerChangeEvent.serverRemoved => t.serverList
  { t with serverList := grown, changes := t.changes ++ [(d, e)] }

/-- Modelled from the spec: the deferred cleanup at the start of
`getChange`: if a REMOVED event was handed out on the previous call, clear
that slot's identity and pointer now; the returned Bool reports whether the
subscriber violated the contract by leaving the pointer non-NULL (logged as
a warning in the C++). -/
def Tracker.clearRemovedSlot (t : Tracker) : Tracker × Bool :=
  match t.lastRemovedIndex with
  | none => (t, false)
  | some i =>
      let warned :=
        match t.serverList.get? i with
        | some slot => slot.pointer.isSome
        | none => false
      ({ t with serverList := t.serverList.set i TrackerSlot.empty
                lastRemovedIndex := none }, warned)

/-- Result of one `getChange` call: the tracker afterwards, the popped event
(if any), and whether a stale-pointer warning was reported. -/
structure GetChangeResult where
  tracker : Tracker
  change : Option (ServerDetails × ServerChangeEvent)
  warnedStalePointer : Bool
deriving Repr, DecidableEq

/-- Modelled from the spec: `getChange(out_entry, out_event)`: first perform
the deferred clearing of the previously-removed slot, then pop the oldest
pending event.  Consuming ADDED installs the identity in its slot and grows
`size()` by one; consuming REMOVED records the index for deferred clearing
and shrinks `size()` by one (the slot keeps its identity until the next
call). -/
def Tracker.getChange (t : Tracker) : GetChangeResult :=
  let cleaned := t.clearRemovedSlot
  let t1 := cleaned.1
  let warned := cleaned.2
  match t1.changes with
  | [] => ⟨t1, none, warned⟩
  | (d, e) :: rest =>
      let idx := d.serverId.indexNumber
      match e with
      | ServerChangeEvent.serverAdded =>
          let slot := (t1.serverList.get? idx).getD TrackerSlot.empty
          ⟨{ t1 with
              serverList := t1.serverList.set idx { slot with server := d }
              changes := rest
              numberOfServers := t1.numberOfServers + 1 },
            some (d, e), warned⟩
      | ServerChangeEvent.serverRemoved =>
          ⟨{ t1 with
              changes := rest
              lastRemovedIndex := some idx
              numberOfServers := t1.numberOfServers - 1 },
            some (d, e), warned⟩

/-- `size()`: the post-consumption count of servers in the tracked view. -/
def Tracker.size (t : Tracker) : Nat := t.numberOfServers

/-- Modelled from the spec: the ids eligible for `random_with_service(mask)`:
currently-present entries (valid identity, and not the slot whose REMOVED
event was already handed out) whose service mask includes `services`. -/
def Tracker.presentMatching (t : Tracker) (services : Nat) : List ServerId :=
  (t.serverList.enum.filter (fun p =>
      p.2.server.serverId.isValid &&
      (some p.1 != t.lastRemovedIndex) &&
      maskHasAll p.2.server.services services)).map
    (fun p => p.2.server.serverId)

/-- Modelled from the spec: `getRandomServerIdWithService(mask)`:
uniform-random selection among currently-present entries whose service mask
includes `services`; terminates on an empty matching set by returning the
invalid id.  `rand` models the random source. -/
def Tracker.getRandomServerIdWithService (t : Tracker)
    (services rand : Nat) : ServerId :=
  let candidates := t.presentMatching services
  if h : candidates.length = 0 then ServerId.invalid
  else candidates.get ⟨rand % candidates.length,
    Nat.mod_lt _ (Nat.pos_of_ne_zero h)⟩

end RAMCloud

namespace RAMCloud

/-! Arithmetic helper lemmas about the ServerId bit layout. -/

theorem shiftLeft32_lor_eq_add (g i : Nat) (h : i < 2 ^ 32) :
    g <<< 32 ||| i = 2 ^ 32 * g + i := by
  symm
  apply Nat.eq_of_testBit_eq
  intro k
  rw [Nat.testBit_lor, Nat.shiftLeft_eq, Nat.mul_comm g (2 ^ 32),
    Nat.testBit_mul_pow_two_add _ h, Nat.testBit_mul_pow_two]
  by_cases hk : k < 32
  · simp [hk, Nat.not_le.mpr hk]
  · have hge : 32 ≤ k := Nat.le_of_not_lt hk
    have hlt : i < 2 ^ k :=
      Nat.lt_of_lt_of_le h (Nat.pow_le_pow_right (by norm_num) hge)
    simp [hk, hge, Nat.testBit_eq_false_of_lt hlt]

theorem ofIndexGen_val (i g : Nat) (hi : i < 2 ^ 32) (hg : g < 2 ^ 32) :
    (ServerId.ofIndexGen i g).serverId = 2 ^ 32 * g + i := by
  unfold ServerId.ofIndexGen
  rw [Nat.mod_eq_of_lt hi, Nat.mod_eq_of_lt hg]
  exact shiftLeft32_lor_eq_add g i hi

theorem ofIndexGen_gen (i g : Nat) (hi : i < 2 ^ 32) (hg : g < 2 ^ 32) :
    (ServerId.ofIndexGen i g).generationNumberRaw = g := by
  unfold ServerId.generationNumberRaw
  rw [ofIndexGen_val i g hi hg, Nat.shiftRight_eq_div_pow,
    Nat.mul_add_div (by norm_num : 0 < 2 ^ 32),
    Nat.div_eq_of_lt hi, Nat.add_zero, Nat.mod_eq_of_lt hg]

/-- Equal 64-bit representations imply equal validity. -/
theorem isValid_congr (a b : ServerId) (h : a.serverId = b.serverId) :
    a.isValid = b.isValid := by
  unfold ServerId.isValid ServerId.generationNumberRaw
  rw [h]

theorem eq_refl_self (a : ServerId) : ServerId.eq a a = true := by
  unfold ServerId.eq
  by_cases h : a.isValid
  · simp [h]
  · simp [Bool.eq_false_iff.mpr h]

theorem eq_true_iff (a b : ServerId) :
    ServerId.eq a b = true ↔
      (a.isValid = false ∧ b.isValid = false) ∨ a.serverId = b.serverId := by
  unfold ServerId.eq
  by_cases ha : a.isValid = false <;> by_cases hb : b.isValid = false <;>
    simp [ha, hb]

end RAMCloud

namespace RAMCloud

/-- Claim C7: for every valid ServerId x (generation number not all-ones,
64-bit representation in range), reconstructing a ServerId from x's
serialised uint64_t form yields a ServerId equal to x under operator==:
`ServerId(x.getId()) == x`. -/
theorem serverId_from_u64_roundtrip (x : ServerId)
    (hvalid : x.isValid = true) (hrange : x.serverId < 2 ^ 64) :
    ServerId.eq (ServerId.ofU64 x.getId) x = true := by
  have hid : ServerId.ofU64 x.getId = x := by
    cases x with
    | mk v =>
      unfold ServerId.ofU64 ServerId.getId
      congr 1
      exact Nat.mod_eq_of_lt hrange
  rw [hid]
  exact eq_refl_self x

/-- Witness for C7 at the concrete valid id with index 1, generation 1. -/
theorem serverId_from_u64_roundtrip_witness :
    ServerId.eq (ServerId.ofU64 (ServerId.ofIndexGen 1 1).getId)
      (ServerId.ofIndexGen 1 1) = true :=
  serverId_from_u64_roundtrip (ServerId.ofIndexGen 1 1) (by decide) (by decide)

/-- Claim C8: for every 32-bit index i and generation g, the ServerId built
from (i, g) serialises to `(g << 32) | i`, its indexNumber() is i, its
generationNumber() is g, it is invalid exactly when g is all-ones, and the
default-constructed ServerId is invalid. -/
theorem serverId_encoding (i g : Nat) (hi : i < 2 ^ 32) (hg : g < 2 ^ 32) :
    (ServerId.ofIndexGen i g).getId = (g <<< 32 ||| i) ∧
    (ServerId.ofIndexGen i g).indexNumber = i ∧
    (ServerId.ofIndexGen i g).generationNumber = g ∧
    ((ServerId.ofIndexGen i g).isValid = false ↔
      g = INVALID_SERVERID_GENERATION_NUMBER) ∧
    ServerId.invalid.isValid = false := by
  refine ⟨?_, ?_, ?_, ?_, by decide⟩
  · unfold ServerId.getId ServerId.ofIndexGen
    rw [Nat.mod_eq_of_lt hi, Nat.mod_eq_of_lt hg]
  · unfold ServerId.indexNumber
    rw [ofIndexGen_val i g hi hg]
    have h1 : (0xffffffff : Nat) = 2 ^ 32 - 1 := by norm_num
    rw [h1, Nat.and_pow_two_sub_one_eq_mod, Nat.mul_add_mod,
      Nat.mod_eq_of_lt hi]
  · unfold ServerId.generationNumber
    exact ofIndexGen_gen i g hi hg
  · unfold ServerId.isValid
    rw [ofIndexGen_gen i g hi hg]
    simp [bne]

/-- Witness for C8 at index 7, generation 3. -/
theorem serverId_encoding_witness :
    (ServerId.ofIndexGen 7 3).getId = (3 <<< 32 ||| 7) ∧
    (ServerId.ofIndexGen 7 3).indexNumber = 7 ∧
    (ServerId.ofIndexGen 7 3).generationNumber = 3 ∧
    ((ServerId.ofIndexGen 7 3).isValid = false ↔
      3 = INVALID_SERVERID_GENERATION_NUMBER) ∧
    ServerId.invalid.isValid = false :=
  serverId_encoding 7 3 (by decide) (by decide)

/-- Claim C10: ServerId equality is not bitwise: any two invalid ServerIds
compare equal under operator== regardless of index bits; two valid ServerIds
compare equal exactly when their 64-bit representations are equal;
operator!= is the negation of operator==; and operator== is reflexive,
symmetric and transitive (an equivalence relation). -/
theorem serverId_equality_spec (a b c : ServerId) :
    (a.isValid = false → b.isValid = false → ServerId.eq a b = true) ∧
    (a.isValid = true → b.isValid = true →
      (ServerId.eq a b = true ↔ a.serverId = b.serverId)) ∧
    (ServerId.neq a b = !(ServerId.eq a b)) ∧
    (ServerId.eq a a = true) ∧
    (ServerId.eq a b = ServerId.eq b a) ∧
    (ServerId.eq a b = true → ServerId.eq b c = true →
      ServerId.eq a c = true) := by
  refine ⟨?_, ?_, rfl, eq_refl_self a, ?_, ?_⟩
  · intro ha hb
    rw [eq_true_iff]
    exact Or.inl ⟨ha, hb⟩
  · intro ha hb
    rw [eq_true_iff]
    constructor
    · rintro (⟨h1, _⟩ | h2)
      · rw [ha] at h1; cases h1
      · exact h2
    · exact Or.inr
  · rw [Bool.eq_iff_iff, eq_true_iff, eq_true_iff]
    constructor
    · rintro (⟨h1, h2⟩ | h3)
      · exact Or.inl ⟨h2, h1⟩
      · exact Or.inr h3.symm
    · rintro (⟨h1, h2⟩ | h3)
      · exact Or.inl ⟨h2, h1⟩
      · exact Or.inr h3.symm
  · intro hab hbc
    rw [eq_true_iff] at hab hbc ⊢
    rcases hab with ⟨ha, hb⟩ | hab
    · rcases hbc with ⟨_, hc⟩ | hbc
      · exact Or.inl ⟨ha, hc⟩
      · exact Or.inl ⟨ha, (isValid_congr b c hbc) ▸ hb⟩
    · rcases hbc with ⟨hb, hc⟩ | hbc
      · exact Or.inl ⟨(isValid_congr a b hab) ▸ hb, hc⟩
      · exact Or.inr (hab.trans hbc)

/-- Witness for C10: two invalid ids with different index bits compare
equal; two concrete valid ids compare by representation; transitivity at
concrete inputs. -/
theorem serverId_equality_spec_witness :
    (ServerId.eq (ServerId.ofU64 (INVALID_SERVERID_GENERATION_NUMBER <<< 32 ||| 5))
      ServerId.invalid = true) ∧
    (ServerId.eq (ServerId.ofIndexGen 1 1) (ServerId.ofIndexGen 1 1) = true ↔
      (ServerId.ofIndexGen 1 1).serverId = (ServerId.ofIndexGen 1 1).serverId) ∧
    (ServerId.eq (ServerId.ofIndexGen 2 1) (ServerId.ofIndexGen 2 1) = true) :=
  ⟨(serverId_equality_spec _ ServerId.invalid ServerId.invalid).1
      (by decide) (by decide),
   (serverId_equality_spec (ServerId.ofIndexGen 1 1) (ServerId.ofIndexGen 1 1)
      ServerId.invalid).2.1 (by decide) (by decide),
   (serverId_equality_spec (ServerId.ofIndexGen 2 1) (ServerId.ofIndexGen 2 1)
      (ServerId.ofIndexGen 2 1)).2.2.2.2.2 (by decide) (by decide)⟩

/-- Claim C1 as stated is false at a concrete input: with suspicion set
(state ⟨true, 5, 0⟩), the local version (5) not advanced past the recorded
one (5), and the stale timeout elapsed (identity tick conversion, delta
2000000 ns ≥ 1 us * 1000), a checkForStaleServerList call whose
requestServerList RPC raises a transport error does send exactly one
request, but leaves the suspicion flag set rather than clearing it. -/
theorem staleCheck_claim_counterexample :
    (FDState.mk true 5 0).staleServerListSuspected = true ∧
    ¬ ((FDState.mk true 5 0).staleServerListVersion < 5) ∧
    1 * 1000 ≤ id (2000000 - (FDState.mk true 5 0).staleServerListTimestamp) ∧
    (checkForStaleServerList 1 id (FDState.mk true 5 0) 5 2000000 false).2
      = 1 ∧
    ¬ ((checkForStaleServerList 1 id (FDState.mk true 5 0) 5 2000000
        false).1.staleServerListSuspected = false) := by
  refine ⟨rfl, by decide, by decide, rfl, by decide⟩

/-- Claim C1 amended: whenever checkForStaleServerList runs after the stale
timeout has elapsed since the suspicion timestamp and the local directory
version has not advanced past the recorded one, it sends exactly one
requestServerList to the coordinator; the suspicion flag is cleared if the
coordinator call succeeds and remains set if it raises a transport error
(the error is swallowed with a warning and the detector retries on a later
round). -/
theorem staleCheck_timeout_sends_one_request (staleUs : Nat)
    (toNs : Nat → Nat) (s : FDState) (currentVersion now : Nat) (ok : Bool)
    (hsusp : s.staleServerListSuspected = true)
    (hver : ¬ (s.staleServerListVersion < currentVersion))
    (helapsed : staleUs * 1000 ≤ toNs (now - s.staleServerListTimestamp)) :
    (checkForStaleServerList staleUs toNs s currentVersion now ok).2 = 1 ∧
    (checkForStaleServerList staleUs toNs s currentVersion now
      ok).1.staleServerListSuspected = !ok := by
  unfold checkForStaleServerList
  cases ok <;> simp [hsusp, hver, helapsed]

/-- Witness for the amended C1 at a concrete input (successful RPC). -/
theorem staleCheck_timeout_sends_one_request_witness :
    (checkForStaleServerList 1 id (FDState.mk true 5 0) 5 2000 true).2 = 1 ∧
    (checkForStaleServerList 1 id (FDState.mk true 5 0) 5 2000
      true).1.staleServerListSuspected = !true :=
  staleCheck_timeout_sends_one_request 1 id (FDState.mk true 5 0) 5 2000 true
    rfl (by decide) (by decide)

/-- Claim C3: while suspecting a stale list, if the local directory version
has advanced strictly past the recorded one, the next
checkForStaleServerList call clears the suspicion and sends no
requestServerList; and any call made while not suspecting sends none either
(so no request is ever sent for that suspicion episode). -/
theorem staleCheck_version_advance_drops_suspicion (staleUs : Nat)
    (toNs : Nat → Nat) (s : FDState) (currentVersion now : Nat) (ok : Bool)
    (hsusp : s.staleServerListSuspected = true)
    (hadv : s.staleServerListVersion < currentVersion) :
    (checkForStaleServerList staleUs toNs s currentVersion now ok
        = ({ s with staleServerListSuspected := false }, 0)) ∧
    (∀ (s2 : FDState) (cv2 now2 : Nat) (ok2 : Bool),
      s2.staleServerListSuspected = false →
      checkForStaleServerList staleUs toNs s2 cv2 now2 ok2 = (s2, 0)) := by
  constructor
  · unfold checkForStaleServerList
    simp [hsusp, hadv]
  · intro s2 cv2 now2 ok2 h2
    unfold checkForStaleServerList
    simp [h2]

/-- Witness for C3 at a concrete input. -/
theorem staleCheck_version_advance_drops_suspicion_witness :
    (checkForStaleServerList 7 id (FDState.mk true 7 0) 11 50 false
        = ({ FDState.mk true 7 0 with staleServerListSuspected := false },
           0)) ∧
    (∀ (s2 : FDState) (cv2 now2 : Nat) (ok2 : Bool),
      s2.staleServerListSuspected = false →
      checkForStaleServerList 7 id s2 cv2 now2 ok2 = (s2, 0)) :=
  staleCheck_version_advance_drops_suspicion 7 id (FDState.mk true 7 0) 11 50
    false rfl (by decide)

/-- Claim C2: for every pingRandomServer round that selected a valid peer
other than ourselves: a hintServerDown is sent iff the ping raised a
timeout or transport error; every outcome (including a transport error from
the hint itself, which is swallowed) returns normally; and on a stale-id
race (ServerListException) the round is skipped with no hint and no state
change. -/
theorem pingRandomServer_hint_spec (ourId pingee : ServerId) (s : FDState)
    (currentVersion now : Nat) (hintOk : Bool)
    (hvalid : pingee.isValid = true)
    (hnotself : ServerId.eq pingee ourId = false) :
    (∀ o : PingOutcome,
      (pingRandomServer ourId s pingee currentVersion now hintOk o).hintsSent
        = if o = PingOutcome.timeoutException ∨
             o = PingOutcome.transportException then 1 else 0) ∧
    (∀ o : PingOutcome,
      (pingRandomServer ourId s pingee currentVersion now hintOk o).result
        = Except.ok ()) ∧
    ((pingRandomServer ourId s pingee currentVersion now hintOk
        PingOutcome.serverListException).state = s) := by
  refine ⟨?_, ?_, ?_⟩
  · intro o
    cases o <;>
      simp [pingRandomServer, hvalid, hnotself, alertCoordinator,
        hintServerDown] <;> cases hintOk <;> rfl
  · intro o
    cases o <;>
      simp [pingRandomServer, hvalid, hnotself, alertCoordinator,
        hintServerDown] <;> cases hintOk <;> rfl
  · simp [pingRandomServer, hvalid, hnotself]

/-- Witness for C2 at concrete ids (peer (1,1), self (2,1), failing hint). -/
theorem pingRandomServer_hint_spec_witness :
    (∀ o : PingOutcome,
      (pingRandomServer (ServerId.ofIndexGen 2 1) (FDState.mk false 0 0)
          (ServerId.ofIndexGen 1 1) 4 9 false o).hintsSent
        = if o = PingOutcome.timeoutException ∨
             o = PingOutcome.transportException then 1 else 0) ∧
    (∀ o : PingOutcome,
      (pingRandomServer (ServerId.ofIndexGen 2 1) (FDState.mk false 0 0)
          (ServerId.ofIndexGen 1 1) 4 9 false o).result = Except.ok ()) ∧
    ((pingRandomServer (ServerId.ofIndexGen 2 1) (FDState.mk false 0 0)
        (ServerId.ofIndexGen 1 1) 4 9 false
        PingOutcome.serverListException).state = FDState.mk false 0 0) :=
  pingRandomServer_hint_spec (ServerId.ofIndexGen 2 1)
    (ServerId.ofIndexGen 1 1) (FDState.mk false 0 0) 4 9 false
    (by decide) (by decide)

/-- Claim C9 as stated is false: the production configuration
(`ServerConfig::forExecution()`, whose `Master()` constructor
value-initialises every field) has `numReplicas = 0`, not 3. -/
theorem forExecution_numReplicas_counterexample :
    ¬ (ServerConfig.forExecution.master.numReplicas = 3) := by decide

/-- Claim C9 amended: `numReplicas` defaults to 0 in the testing
configuration (`forTesting`) and also to 0 in the production configuration
(`forExecution`): the `Master()` constructor value-initialises it, and the
real production default comes from command-line parsing in main(), outside
ServerConfig. -/
theorem numReplicas_defaults :
    ServerConfig.forTesting.master.numReplicas = 0 ∧
    ServerConfig.forExecution.master.numReplicas = 0 := by decide

/-! Helper lemmas about the deferred-clearing step of getChange. -/

theorem clearRemovedSlot_changes (t : Tracker) :
    t.clearRemovedSlot.1.changes = t.changes := by
  unfold Tracker.clearRemovedSlot
  cases t.lastRemovedIndex <;> rfl

theorem clearRemovedSlot_count (t : Tracker) :
    t.clearRemovedSlot.1.numberOfServers = t.numberOfServers := by
  unfold Tracker.clearRemovedSlot
  cases t.lastRemovedIndex <;> rfl

theorem getChange_warned (t : Tracker) :
    (t.getChange).warnedStalePointer = t.clearRemovedSlot.2 := by
  unfold Tracker.getChange
  rcases hc : t.clearRemovedSlot.1.changes with _ | ⟨⟨d, e⟩, rest⟩
  · simp [hc]
  · cases e <;> simp [hc]

/-- Claim C4: after getChange hands out a REMOVED event for a server, the
next getChange call clears that slot's identity and its per-entry pointer;
if the subscriber left the pointer non-NULL at that point, the call reports
the violation (warning) and clears it anyway.  Concretely: handing out a
REMOVED records the slot index; and on the following call the deferred
clearing resets that slot to empty, drops the recorded index, and the
warning flag is raised exactly when the pointer was still non-NULL. -/
theorem tracker_removed_clears_slot (t : Tracker) (i : Nat)
    (slot : TrackerSlot) (hlast : t.lastRemovedIndex = some i)
    (hslot : t.serverList.get? i = some slot) :
    (t.clearRemovedSlot
        = ({ t with serverList := t.serverList.set i TrackerSlot.empty
                    lastRemovedIndex := none }, slot.pointer.isSome)) ∧
    ((t.getChange).warnedStalePointer = slot.pointer.isSome) ∧
    (t.changes = [] →
      (t.getChange).tracker.serverList.get? i = some TrackerSlot.empty) ∧
    (∀ (u : Tracker) (d : ServerDetails)
        (rest : List (ServerDetails × ServerChangeEvent)),
      u.changes = (d, ServerChangeEvent.serverRemoved) :: rest →
      (u.getChange).change = some (d, ServerChangeEvent.serverRemoved) ∧
      (u.getChange).tracker.lastRemovedIndex
        = some d.serverId.indexNumber) := by
  have hclear : t.clearRemovedSlot
      = ({ t with serverList := t.serverList.set i TrackerSlot.empty
                  lastRemovedIndex := none }, slot.pointer.isSome) := by
    unfold Tracker.clearRemovedSlot
    rw [hlast]
    rw [List.get?_eq_getElem?] at hslot
    simp [hslot]
  refine ⟨hclear, ?_, ?_, ?_⟩
  · rw [getChange_warned, hclear]
  · intro hempty
    have hlen : i < t.serverList.length := (List.get?_eq_some.mp hslot).choose
    unfold Tracker.getChange
    rw [hclear]
    simp [hempty, List.get?_eq_getElem?]
    exact List.getElem?_set_eq_of_lt TrackerSlot.empty hlen
  · intro u d rest hu
    rcases hcs : u.clearRemovedSlot with ⟨u1, w⟩
    have hch : u1.changes = (d, ServerChangeEvent.serverRemoved) :: rest := by
      have h2 := clearRemovedSlot_changes u
      rw [hcs] at h2
      exact h2.trans hu
    unfold Tracker.getChange
    rw [hcs]
    simp [hch]

/-- Witness for C4: a one-slot tracker whose REMOVED was just handed out and
whose subscriber left the pointer set to 57. -/
theorem tracker_removed_clears_slot_witness :
    ((Tracker.mk
        [TrackerSlot.mk (ServerDetails.mk (ServerId.ofIndexGen 0 0) "" 0)
          (some 57)] [] (some 0) 0).clearRemovedSlot
      = ({ Tracker.mk
            [TrackerSlot.mk (ServerDetails.mk (ServerId.ofIndexGen 0 0) "" 0)
              (some 57)] [] (some 0) 0 with
            serverList :=
              (Tracker.mk
                [TrackerSlot.mk
                  (ServerDetails.mk (ServerId.ofIndexGen 0 0) "" 0)
                  (some 57)] [] (some 0) 0).serverList.set 0
                TrackerSlot.empty
            lastRemovedIndex := none },
         (TrackerSlot.mk (ServerDetails.mk (ServerId.ofIndexGen 0 0) "" 0)
            (some 57)).pointer.isSome)) ∧
    (((Tracker.mk
        [TrackerSlot.mk (ServerDetails.mk (ServerId.ofIndexGen 0 0) "" 0)
          (some 57)] [] (some 0) 0).getChange).warnedStalePointer
      = (TrackerSlot.mk (ServerDetails.mk (ServerId.ofIndexGen 0 0) "" 0)
          (some 57)).pointer.isSome) :=
  have h := tracker_removed_clears_slot
    (Tracker.mk
      [TrackerSlot.mk (ServerDetails.mk (ServerId.ofIndexGen 0 0) "" 0)
        (some 57)] [] (some 0) 0) 0
    (TrackerSlot.mk (ServerDetails.mk (ServerId.ofIndexGen 0 0) "" 0)
      (some 57)) (by decide) (by decide)
  ⟨h.1, h.2.1⟩

/-- Claim C5: getRandomServerIdWithService is a total function (so it
terminates for every service mask and tracker state); it returns the
invalid ServerId exactly when no currently-present entry's service mask
includes the requested one (in particular on an empty consumed view or
after all matching servers were removed), and otherwise returns the id of
one of the present matching entries (all of which are valid ids). -/
theorem tracker_random_with_service (t : Tracker) (services rand : Nat) :
    (t.presentMatching services = [] →
      t.getRandomServerIdWithService services rand = ServerId.invalid) ∧
    (ServerId.invalid.isValid = false) ∧
    (t.presentMatching services ≠ [] →
      t.getRandomServerIdWithService services rand
        ∈ t.presentMatching services) ∧
    (∀ x ∈ t.presentMatching services, x.isValid = true) := by
  refine ⟨?_, by decide, ?_, ?_⟩
  · intro h
    unfold Tracker.getRandomServerIdWithService
    simp [h]
  · intro h
    unfold Tracker.getRandomServerIdWithService
    have hlen : ¬ (t.presentMatching services).length = 0 := by
      simpa [List.length_eq_zero] using h
    simp only [hlen, dite_false]
    exact List.get_mem _ _ _
  · intro x hx
    unfold Tracker.presentMatching at hx
    rcases List.mem_map.mp hx with ⟨p, hp, hpx⟩
    have hcond := (List.mem_filter.mp hp).2
    have hv : p.2.server.serverId.isValid = true := by
      revert hcond
      cases hval : p.2.server.serverId.isValid <;> simp [hval]
    rw [← hpx]
    exact hv

/-- Witness for C5: the empty tracker yields the invalid id; a tracker
holding one master-service entry yields that entry's id. -/
theorem tracker_random_with_service_witness :
    (Tracker.getRandomServerIdWithService Tracker.empty
        (serviceBit MASTER_SERVICE) 0 = ServerId.invalid) ∧
    (Tracker.getRandomServerIdWithService
        (Tracker.mk
          [TrackerSlot.mk
            (ServerDetails.mk (ServerId.ofIndexGen 0 1) ""
              (serviceBit MASTER_SERVICE)) none] [] none 1)
        (serviceBit MASTER_SERVICE) 3
      ∈ Tracker.presentMatching
          (Tracker.mk
            [TrackerSlot.mk
              (ServerDetails.mk (ServerId.ofIndexGen 0 1) ""
                (serviceBit MASTER_SERVICE)) none] [] none 1)
          (serviceBit MASTER_SERVICE)) :=
  ⟨(tracker_random_with_service Tracker.empty
      (serviceBit MASTER_SERVICE) 0).1 (by decide),
   (tracker_random_with_service
      (Tracker.mk
        [TrackerSlot.mk
          (ServerDetails.mk (ServerId.ofIndexGen 0 1) ""
            (serviceBit MASTER_SERVICE)) none] [] none 1)
      (serviceBit MASTER_SERVICE) 3).2.2.1 (by decide)⟩

/-- Claim C6: enqueueChange leaves size() unchanged for both ADDED and
REMOVED; consuming a pending ADDED via getChange grows size() by one, and
consuming a pending REMOVED shrinks it by one (stated additively with the
count positive, as it is whenever a REMOVED for a present server is
pending). -/
theorem tracker_size_postconsumption (t : Tracker) (d : ServerDetails)
    (rest : List (ServerDetails × ServerChangeEvent)) :
    ((t.enqueueChange d ServerChangeEvent.serverAdded).size = t.size) ∧
    ((t.enqueueChange d ServerChangeEvent.serverRemoved).size = t.size) ∧
    (t.changes = (d, ServerChangeEvent.serverAdded) :: rest →
      (t.getChange).tracker.size = t.size + 1 ∧
      (t.getChange).change = some (d, ServerChangeEvent.serverAdded)) ∧
    (t.changes = (d, ServerChangeEvent.serverRemoved) :: rest →
      1 ≤ t.size →
      (t.getChange).tracker.size + 1 = t.size ∧
      (t.getChange).change = some (d, ServerChangeEvent.serverRemoved)) := by
  refine ⟨rfl, rfl, ?_, ?_⟩
  · intro hu
    rcases hcs : t.clearRemovedSlot with ⟨t1, w⟩
    have hch : t1.changes = (d, ServerChangeEvent.serverAdded) :: rest := by
      have h2 := clearRemovedSlot_changes t
      rw [hcs] at h2
      exact h2.trans hu
    have hcnt : t1.numberOfServers = t.numberOfServers := by
      have h2 := clearRemovedSlot_count t
      rw [hcs] at h2
      exact h2
    unfold Tracker.getChange
    rw [hcs]
    simp [hch, Tracker.size, hcnt]
  · intro hu hpos
    rcases hcs : t.clearRemovedSlot with ⟨t1, w⟩
    have hch : t1.changes = (d, ServerChangeEvent.serverRemoved) :: rest := by
      have h2 := clearRemovedSlot_changes t
      rw [hcs] at h2
      exact h2.trans hu
    have hcnt : t1.numberOfServers = t.numberOfServers := by
      have h2 := clearRemovedSlot_count t
      rw [hcs] at h2
      exact h2
    unfold Tracker.getChange
    rw [hcs]
    simp [hch, Tracker.size, hcnt]
    exact Nat.succ_pred_eq_of_pos hpos

/-- Witness for C6: a one-server tracker with a pending REMOVED, and a fresh
tracker with a pending ADDED. -/
theorem tracker_size_postconsumption_witness :
    (((Tracker.mk [] [(ServerDetails.mk (ServerId.ofIndexGen 0 0) "" 0,
          ServerChangeEvent.serverAdded)] none 0).getChange).tracker.size
        = (Tracker.mk [] [(ServerDetails.mk (ServerId.ofIndexGen 0 0) "" 0,
          ServerChangeEvent.serverAdded)] none 0).size + 1) ∧
    (((Tracker.mk
        [TrackerSlot.mk (ServerDetails.mk (ServerId.ofIndexGen 0 0) "" 0)
          none]
        [(ServerDetails.mk (ServerId.ofIndexGen 0 0) "" 0,
          ServerChangeEvent.serverRemoved)] none 1).getChange).tracker.size
        + 1
      = (Tracker.mk
          [TrackerSlot.mk (ServerDetails.mk (ServerId.ofIndexGen 0 0) "" 0)
            none]
          [(ServerDetails.mk (ServerId.ofIndexGen 0 0) "" 0,
            ServerChangeEvent.serverRemoved)] none 1).size) :=
  ⟨((tracker_size_postconsumption
      (Tracker.mk [] [(ServerDetails.mk (ServerId.ofIndexGen 0 0) "" 0,
        ServerChangeEvent.serverAdded)] none 0)
      (ServerDetails.mk (ServerId.ofIndexGen 0 0) "" 0) []).2.2.1 rfl).1,
   ((tracker_size_postconsumption
      (Tracker.mk
        [TrackerSlot.mk (ServerDetails.mk (ServerId.ofIndexGen 0 0) "" 0)
          none]
        [(ServerDetails.mk (ServerId.ofIndexGen 0 0) "" 0,
          ServerChangeEvent.serverRemoved)] none 1)
      (ServerDetails.mk (ServerId.ofIndexGen 0 0) "" 0) []).2.2.2 rfl
      (by decide)).1⟩

end RAMCloud
